import Mathlib

/-!
Verification of the instamatic Tecnai server (`instamaticServer/tem_server.py`
and `instamaticServer/utils/config.py`) against its design specification.

The embedding models Python values, the command dictionary, the device
session (an object exposing named attributes, some callable), the dispatch
loop `DeviceServer.run` / `DeviceServer.evaluate`, the connection handler
`handle`, the listener `listen`, the bounded single-slot queues, the startup
wait in `main`, and the camera-configuration fallback in `config.__init__`.
-/

namespace TemServer

/-- Python values as they appear on the command/response channels. -/
inductive Value where
  | none : Value
  | bool (b : Bool) : Value
  | int (n : Int) : Value
  | str (s : String) : Value
  | tuple (elems : List Value) : Value
  | dict (entries : List (String × Value)) : Value

/-- A raised Python exception: its class name `e.__class__.__name__` and its
constructor arguments `e.args`. -/
structure PyError where
  kind : String
  args : List Value

/-- A decoded command dictionary (`cmd` in `DeviceServer.run`): a mapping
from string keys to values. -/
abbrev Cmd := List (String × Value)

/-- `cmd.get(key)` — first binding of `key`, or `none` when absent. -/
def cmdGet : Cmd → String → Option Value
  | [], _ => Option.none
  | (k, v) :: rest, key => if k = key then some v else cmdGet rest key

/-- An attribute of the device session object: either a bound callable or a
plain (non-callable) value. -/
inductive Attr where
  | callable (f : List Value → List (String × Value) → Except PyError Value)
  | plain (v : Value)

/-- The device session `self.tem`: an object exposing attributes by name. -/
structure Device where
  attrs : String → Option Attr

/-- `func_name = cmd.get('func_name', cmd.get('attr_name'))` in
`DeviceServer.run`: the value under `func_name`, else the value under
`attr_name`, else Python `None`. -/
def selectorOf (cmd : Cmd) : Value :=
  match cmdGet cmd "func_name" with
  | some v => v
  | Option.none =>
    match cmdGet cmd "attr_name" with
    | some v => v
    | Option.none => Value.none

/-- `args = cmd.get('args', ())`. -/
def argsOf (cmd : Cmd) : Value :=
  match cmdGet cmd "args" with
  | some v => v
  | Option.none => Value.tuple []

/-- `kwargs = cmd.get('kwargs', dict())`. -/
def kwargsOf (cmd : Cmd) : Value :=
  match cmdGet cmd "kwargs" with
  | some v => v
  | Option.none => Value.dict []

/-- `getattr(self.tem, func_name)`: resolving a non-string name raises
`TypeError`, an unknown name raises `AttributeError`, otherwise the
attribute is returned. -/
def getattrD (dev : Device) (name : Value) : Except PyError Attr :=
  match name with
  | Value.str s =>
    match dev.attrs s with
    | some a => Except.ok a
    | Option.none =>
      Except.error (PyError.mk "AttributeError" [Value.str ("object has no attribute " ++ s)])
  | _ => Except.error (PyError.mk "TypeError" [Value.str "attribute name must be string"])

/-- Unpacking `*args` at a call site: a tuple unpacks to its elements, a
non-iterable raises `TypeError`. -/
def asArgs (v : Value) : Except PyError (List Value) :=
  match v with
  | Value.tuple xs => Except.ok xs
  | _ => Except.error (PyError.mk "TypeError" [Value.str "argument after * must be an iterable"])

/-- Unpacking `**kwargs` at a call site: a dict unpacks to keyword bindings,
anything else raises `TypeError`. -/
def asKwargs (v : Value) : Except PyError (List (String × Value)) :=
  match v with
  | Value.dict es => Except.ok es
  | _ => Except.error (PyError.mk "TypeError" [Value.str "argument after ** must be a mapping"])

/-- `f(*args, **kwargs)`: calling a plain non-callable attribute raises
`TypeError`; a callable runs and returns its result or raises. -/
def callValue (a : Attr) (args : List Value) (kwargs : List (String × Value)) :
    Except PyError Value :=
  match a with
  | Attr.callable f => f args kwargs
  | Attr.plain _ => Except.error (PyError.mk "TypeError" [Value.str "object is not callable"])

/-- `DeviceServer.evaluate`: `f = getattr(self.tem, func_name); f(*args, **kwargs)`. -/
def evaluate (dev : Device) (func_name args kwargs : Value) : Except PyError Value := do
  let f ← getattrD dev func_name
  let a ← asArgs args
  let k ← asKwargs kwargs
  callValue f a k

/-- The error payload built in `DeviceServer.run`:
`ret = (e.__class__.__name__, e.args)`. -/
def errInfo (e : PyError) : Value := Value.tuple [Value.str e.kind, Value.tuple e.args]

/-- One iteration of the dispatch loop after a command was taken from the
queue: the `(status, ret)` pair put on `self.responses`. -/
def runIteration (dev : Device) (cmd : Cmd) : Nat × Value :=
  match evaluate dev (selectorOf cmd) (argsOf cmd) (kwargsOf cmd) with
  | Except.ok ret => (200, ret)
  | Except.error e => (500, errInfo e)

/-- What `self.requests.get(timeout=TIMEOUT)` observes in one pass of the
`while True` loop of `DeviceServer.run`: either `queue.Empty` together with
the current state of `stop_program_event`, or a command. -/
inductive LoopEvent where
  | timeout (stopSet : Bool)
  | recv (cmd : Cmd)

/-- `DeviceServer.run` over a finite observation trace: the list of responses
put on `self.responses`, and whether the loop exited (`break`). On
`queue.Empty` the loop exits exactly when `stop_program_event.is_set()`;
on a received command it evaluates, publishes, and keeps looping. -/
def runLoop (dev : Device) : List LoopEvent → List (Nat × Value) × Bool
  | [] => ([], false)
  | LoopEvent.timeout stop :: rest =>
    if stop then ([], true) else runLoop dev rest
  | LoopEvent.recv cmd :: rest =>
    let p := runLoop dev rest
    (runIteration dev cmd :: p.1, p.2)

/-- The commands the loop dequeues before it can exit: every received
command, since the exit branch is reachable only from a `timeout` pass. -/
def processedCmds : List LoopEvent → List Cmd
  | [] => []
  | LoopEvent.timeout stop :: rest => if stop then [] else processedCmds rest
  | LoopEvent.recv cmd :: rest => cmd :: processedCmds rest

end TemServer

namespace TemServer

/-- `cmd` with every binding of `key` removed; used to state that a key is
ignored by the dispatch loop. -/
def removeKey : Cmd → String → Cmd
  | [], _ => []
  | (k, v) :: rest, key =>
    if k = key then removeKey rest key else (k, v) :: removeKey rest key

theorem cmdGet_removeKey (cmd : Cmd) (k key : String) (h : key ≠ k) :
    cmdGet (removeKey cmd k) key = cmdGet cmd key := by
  induction cmd with
  | nil => rfl
  | cons kv rest ih =>
    obtain ⟨k0, v0⟩ := kv
    by_cases hk : k0 = k
    · subst hk
      have hne : ¬ (k0 = key) := fun hkk => h hkk.symm
      simp [removeKey, cmdGet, hne, ih]
    · by_cases hkey : k0 = key
      · subst hkey
        simp [removeKey, hk, cmdGet]
      · simp [removeKey, hk, cmdGet, hkey, ih]

/-- A stub device session in the spirit of the test scenario: `echo` returns
its single argument, `boom` raises `DeviceFault("overheat")`,
`default_binsize` is a plain integer attribute, `get_binning` is a bound
method returning that integer. -/
def stubDevice : Device :=
  Device.mk (fun s =>
    if s = "echo" then
      some (Attr.callable (fun args _ =>
        match args with
        | [v] => Except.ok v
        | _ => Except.error (PyError.mk "TypeError" [Value.str "echo takes one argument"])))
    else if s = "boom" then
      some (Attr.callable (fun _ _ =>
        Except.error (PyError.mk "DeviceFault" [Value.str "overheat"])))
    else if s = "default_binsize" then some (Attr.plain (Value.int 1))
    else if s = "get_binning" then
      some (Attr.callable (fun _ _ => Except.ok (Value.int 1)))
    else Option.none)

def echoCmd : Cmd := [("func_name", Value.str "echo"), ("args", Value.tuple [Value.int 42])]

def boomCmd : Cmd := [("func_name", Value.str "boom")]

def ghostCmd : Cmd := [("func_name", Value.str "ghost")]

def binsizeAttrCmd : Cmd := [("attr_name", Value.str "default_binsize")]

def getBinningAttrCmd : Cmd := [("attr_name", Value.str "get_binning")]

def bothKeysCmd : Cmd :=
  [("func_name", Value.str "echo"), ("attr_name", Value.str "default_binsize"),
   ("args", Value.tuple [Value.int 7])]

/-- Claim C1: every exception raised while executing a command against the
device session is turned into a `(500, (kind, args))` failure result rather
than propagated; the loop publishes exactly one result per dequeued command,
and it exits only after observing the shutdown flag set on an empty-queue
timeout pass. -/
theorem dispatch_loop_isolates_failures (dev : Device) (evs : List LoopEvent) :
    (runLoop dev evs).1 = (processedCmds evs).map (runIteration dev) ∧
    ((runLoop dev evs).2 = true → LoopEvent.timeout true ∈ evs) ∧
    (∀ cmd e, evaluate dev (selectorOf cmd) (argsOf cmd) (kwargsOf cmd) = Except.error e →
      runIteration dev cmd = (500, errInfo e)) := by
  refine ⟨?_, ?_, ?_⟩
  · induction evs with
    | nil => rfl
    | cons ev rest ih =>
      cases ev with
      | timeout stop => cases stop <;> simp [runLoop, processedCmds, ih]
      | recv cmd => simp [runLoop, processedCmds, ih]
  · induction evs with
    | nil => intro h; simp [runLoop] at h
    | cons ev rest ih =>
      cases ev with
      | timeout stop =>
        cases stop
        · intro h
          simp only [runLoop, Bool.false_eq_true, if_false] at h
          exact List.mem_cons_of_mem _ (ih h)
        · intro _
          exact List.mem_cons_self _ _
      | recv cmd =>
        intro h
        simp only [runLoop] at h
        exact List.mem_cons_of_mem _ (ih h)
  · intro cmd e he
    simp [runIteration, he]

theorem dispatch_loop_isolates_failures_witness :
    runIteration stubDevice boomCmd =
      (500, errInfo (PyError.mk "DeviceFault" [Value.str "overheat"])) :=
  (dispatch_loop_isolates_failures stubDevice [LoopEvent.recv boomCmd]).2.2 boomCmd
    (PyError.mk "DeviceFault" [Value.str "overheat"]) rfl

/-- Claim C2: a successful invocation publishes `(200, ret)` with `ret` the
exact value the device session operation returned, and a failing invocation
publishes `(500, (errorKind, args))`. -/
theorem result_encoding (dev : Device) (cmd : Cmd) :
    (∀ ret, evaluate dev (selectorOf cmd) (argsOf cmd) (kwargsOf cmd) = Except.ok ret →
      runIteration dev cmd = (200, ret)) ∧
    (∀ e, evaluate dev (selectorOf cmd) (argsOf cmd) (kwargsOf cmd) = Except.error e →
      runIteration dev cmd = (500, Value.tuple [Value.str e.kind, Value.tuple e.args])) := by
  constructor
  · intro ret h
    simp [runIteration, h]
  · intro e h
    simp [runIteration, h, errInfo]

theorem result_encoding_witness :
    runIteration stubDevice echoCmd = (200, Value.int 42) ∧
    runIteration stubDevice boomCmd =
      (500, Value.tuple [Value.str "DeviceFault", Value.tuple [Value.str "overheat"]]) :=
  ⟨(result_encoding stubDevice echoCmd).1 (Value.int 42) rfl,
   (result_encoding stubDevice boomCmd).2 (PyError.mk "DeviceFault" [Value.str "overheat"]) rfl⟩

/-- Claim C4: a command whose selector names no attribute of the device
session yields a failure result whose errorKind is `AttributeError`, the
unknown-name error class. -/
theorem unknown_selector_yields_attribute_error (dev : Device) (cmd : Cmd) (s : String)
    (hsel : selectorOf cmd = Value.str s) (hmissing : dev.attrs s = Option.none) :
    runIteration dev cmd =
      (500, Value.tuple [Value.str "AttributeError",
        Value.tuple [Value.str ("object has no attribute " ++ s)]]) := by
  simp [runIteration, evaluate, hsel, getattrD, hmissing, errInfo, Bind.bind, Except.bind]

theorem unknown_selector_yields_attribute_error_witness :
    runIteration stubDevice ghostCmd =
      (500, Value.tuple [Value.str "AttributeError",
        Value.tuple [Value.str ("object has no attribute " ++ "ghost")]]) :=
  unknown_selector_yields_attribute_error stubDevice ghostCmd "ghost" rfl rfl

/-- Claim C9: when a command carries both `func_name` and `attr_name`, the
loop uses `func_name` as the selector, the result does not depend on the
`attr_name` binding at all, and `attr_name` determines the selector only
when `func_name` is absent. -/
theorem func_name_shadows_attr_name (cmd : Cmd) (dev : Device) (v : Value)
    (hf : cmdGet cmd "func_name" = some v) :
    selectorOf cmd = v ∧
    runIteration dev cmd = runIteration dev (removeKey cmd "attr_name") ∧
    (∀ c : Cmd, cmdGet c "func_name" = Option.none →
      selectorOf c = (match cmdGet c "attr_name" with
                      | some w => w
                      | Option.none => Value.none)) := by
  have hfr : cmdGet (removeKey cmd "attr_name") "func_name" = some v := by
    rw [cmdGet_removeKey cmd "attr_name" "func_name" (by decide)]
    exact hf
  refine ⟨by simp [selectorOf, hf], ?_, ?_⟩
  · have hsel : selectorOf (removeKey cmd "attr_name") = v := by simp [selectorOf, hfr]
    have hargs : argsOf (removeKey cmd "attr_name") = argsOf cmd := by
      simp [argsOf, cmdGet_removeKey cmd "attr_name" "args" (by decide)]
    have hkw : kwargsOf (removeKey cmd "attr_name") = kwargsOf cmd := by
      simp [kwargsOf, cmdGet_removeKey cmd "attr_name" "kwargs" (by decide)]
    simp [runIteration, selectorOf, hf, hfr, hargs, hkw]
  · intro c hc
    simp [selectorOf, hc]

theorem func_name_shadows_attr_name_witness :
    selectorOf bothKeysCmd = Value.str "echo" ∧
    runIteration stubDevice bothKeysCmd =
      runIteration stubDevice (removeKey bothKeysCmd "attr_name") := by
  have h := func_name_shadows_attr_name bothKeysCmd stubDevice (Value.str "echo") rfl
  exact ⟨h.1, h.2.1⟩

end TemServer

namespace TemServer

/-- Claim C3 (what the code actually does): `DeviceServer.run` funnels
`attr_name` through the same `evaluate` path as `func_name`, so the resolved
attribute is always called. Reading the plain integer attribute
`default_binsize` therefore yields a `(500, TypeError)` failure instead of
the attribute value, which is what the repository's own test
`test_91_default_binsize` expects to receive; a callable attribute such as
`get_binning` yields its call result rather than the bound method. -/
theorem attr_name_is_invoked_not_read :
    runIteration stubDevice binsizeAttrCmd =
      (500, Value.tuple [Value.str "TypeError",
        Value.tuple [Value.str "object is not callable"]]) ∧
    runIteration stubDevice getBinningAttrCmd = (200, Value.int 1) :=
  ⟨rfl, rfl⟩

/-- One read from the socket in `handle`: either a zero-length chunk (the
peer closed) or a decoded payload. -/
inductive RecvEvent where
  | closed
  | payload (v : Value)

/-- The sentinel test `data == 'exit' or data == 'kill'` in `handle`. -/
def isCloseSentinel : Value → Bool
  | Value.str "exit" => true
  | Value.str "kill" => true
  | _ => false

/-- The connection handler `handle` over a finite trace of socket reads,
each paired with the state of `stop_program_event` observed at the top of
the loop pass. The output lists, in order, each submitted payload together
with the result relayed back to the client; `relay` abstracts the round
trip `server_type.requests.put` / `server_type.responses.get`. A set
shutdown flag, a zero-length read, or a close sentinel ends the connection
with nothing submitted and nothing sent for that pass. -/
def handleLoop (relay : Value → Nat × Value) :
    List (Bool × RecvEvent) → List (Value × (Nat × Value))
  | [] => []
  | (stop, ev) :: rest =>
    if stop then []
    else
      match ev with
      | RecvEvent.closed => []
      | RecvEvent.payload v =>
        if isCloseSentinel v then []
        else (v, relay v) :: handleLoop relay rest

/-- Claim C5: on a zero-length read or on decoding the sentinel `"exit"` or
`"kill"`, the handler terminates the connection at once: no command is
submitted to the command channel and no result is sent back, for that read
or any later one. -/
theorem sentinel_closes_without_submitting (relay : Value → Nat × Value)
    (ev : RecvEvent) (rest : List (Bool × RecvEvent))
    (h : ev = RecvEvent.closed ∨ ev = RecvEvent.payload (Value.str "exit") ∨
         ev = RecvEvent.payload (Value.str "kill")) :
    handleLoop relay ((false, ev) :: rest) = [] := by
  rcases h with h | h | h <;> subst h <;> rfl

theorem sentinel_closes_without_submitting_witness :
    handleLoop (fun v => (200, v))
      [(false, RecvEvent.payload (Value.str "exit")),
       (false, RecvEvent.payload (Value.dict echoCmd))] = [] :=
  sentinel_closes_without_submitting (fun v => (200, v))
    (RecvEvent.payload (Value.str "exit"))
    [(false, RecvEvent.payload (Value.dict echoCmd))]
    (Or.inr (Or.inl rfl))

/-- One pass of the accept loop in `listen`: either `socket.timeout` with
the observed state of the shutdown flag, or an accepted connection
(identified by `connId`) delivering the given socket reads. -/
inductive NetEvent where
  | timeout (stopSet : Bool)
  | accepted (connId : Nat) (reads : List (Bool × RecvEvent))

/-- Observable events of the listener thread. -/
inductive TraceEv where
  | accept (connId : Nat)
  | relayed (connId : Nat) (v : Value) (r : Nat × Value)

/-- `listen` as written in the source: when `device_client.accept()` returns
a connection, `handle(connection, server_type)` is called inline on the
listener thread, so the whole handler runs before the loop can accept
again. -/
def listenTrace (relay : Value → Nat × Value) : List NetEvent → List TraceEv
  | [] => []
  | NetEvent.timeout stop :: rest => if stop then [] else listenTrace relay rest
  | NetEvent.accepted id reads :: rest =>
    TraceEv.accept id ::
      ((handleLoop relay reads).map (fun vr => TraceEv.relayed id vr.1 vr.2) ++
        listenTrace relay rest)

def demoRelay : Value → Nat × Value := fun v => (200, v)

/-- Two connections arrive back to back; the first sends one command and
stays open for another read. -/
def demoNet : List NetEvent :=
  [NetEvent.accepted 1 [(false, RecvEvent.payload (Value.dict echoCmd))],
   NetEvent.accepted 2 []]

/-- Claim C6 fails on the code: after accepting connection 1, the very next
listener event is the handler relaying connection 1's command, not the
accept of the already-pending connection 2 — the listener blocks on the
handler instead of spawning a thread and continuing to accept. -/
theorem listener_blocks_on_handler_counterexample :
    listenTrace demoRelay demoNet =
      [TraceEv.accept 1,
       TraceEv.relayed 1 (Value.dict echoCmd) (200, Value.dict echoCmd),
       TraceEv.accept 2] ∧
    (listenTrace demoRelay demoNet).get? 1 =
      some (TraceEv.relayed 1 (Value.dict echoCmd) (200, Value.dict echoCmd)) ∧
    TraceEv.relayed 1 (Value.dict echoCmd) (200, Value.dict echoCmd) ≠ TraceEv.accept 2 := by
  refine ⟨rfl, rfl, ?_⟩
  intro h
  cases h

/-- The full block of listener events a single connection contributes: its
accept followed by everything its handler relays. -/
def connEvents (relay : Value → Nat × Value)
    (c : Nat × List (Bool × RecvEvent)) : List TraceEv :=
  TraceEv.accept c.1 ::
    (handleLoop relay c.2).map (fun vr => TraceEv.relayed c.1 vr.1 vr.2)

/-- Claim C6, amended: the listener serves connections strictly
sequentially — it calls the handler inline and accepts the next connection
only after the previous handler has run to completion, so the trace over
any run of accepted connections is the concatenation of each connection's
complete event block. -/
theorem listener_serves_connections_sequentially (relay : Value → Nat × Value)
    (conns : List (Nat × List (Bool × RecvEvent))) :
    listenTrace relay (conns.map (fun c => NetEvent.accepted c.1 c.2)) =
      conns.flatMap (connEvents relay) := by
  induction conns with
  | nil => rfl
  | cons c rest ih =>
    simp [listenTrace, connEvents, ih]

end TemServer

namespace TemServer

/-- A `queue.Queue(maxsize=n)`: a FIFO buffer whose `put` is enabled only
while fewer than `maxsize` items are stored (otherwise the caller blocks)
and whose `get` is enabled only when an item is present. -/
structure BQueue (α : Type) where
  maxsize : Nat
  items : List α

/-- One enabled queue operation: a non-blocking `put` appends when the
buffer is below capacity; a non-blocking `get` removes the oldest item. -/
inductive QStep (α : Type) : BQueue α → BQueue α → Prop where
  | put (q : BQueue α) (x : α) (h : q.items.length < q.maxsize) :
      QStep α q (BQueue.mk q.maxsize (q.items ++ [x]))
  | get (q : BQueue α) (x : α) (rest : List α) (h : q.items = x :: rest) :
      QStep α q (BQueue.mk q.maxsize rest)

/-- `TemServer.requests = queue.Queue(maxsize=1)`. -/
def temRequests : BQueue Cmd := BQueue.mk 1 []

/-- `TemServer.responses = queue.Queue(maxsize=1)`. -/
def temResponses : BQueue (Nat × Value) := BQueue.mk 1 []

/-- `CamServer.requests = queue.Queue(maxsize=1)`. -/
def camRequests : BQueue Cmd := BQueue.mk 1 []

/-- `CamServer.responses = queue.Queue(maxsize=1)`. -/
def camResponses : BQueue (Nat × Value) := BQueue.mk 1 []

theorem qstep_maxsize {α : Type} {q q2 : BQueue α} (h : QStep α q q2) :
    q2.maxsize = q.maxsize := by
  cases h <;> rfl

theorem qstep_preserves_bound {α : Type} {q q2 : BQueue α} (hs : QStep α q q2)
    (h : q.items.length ≤ q.maxsize) : q2.items.length ≤ q2.maxsize := by
  cases hs with
  | put x hlt =>
    show (q.items ++ [x]).length ≤ q.maxsize
    simpa using hlt
  | get x rest hq =>
    show rest.length ≤ q.maxsize
    have hlen : q.items.length = rest.length + 1 := by simp [hq]
    omega

theorem reachable_bound {α : Type} (q0 q : BQueue α)
    (h0 : q0.items.length ≤ q0.maxsize)
    (hr : Relation.ReflTransGen (QStep α) q0 q) :
    q.items.length ≤ q.maxsize ∧ q.maxsize = q0.maxsize := by
  induction hr with
  | refl => exact ⟨h0, rfl⟩
  | tail hab hbc ih =>
    exact ⟨qstep_preserves_bound hbc ih.1, (qstep_maxsize hbc).trans ih.2⟩

/-- Claim C7: each of the four channels is created empty with capacity one,
and every state reachable from it by `put`/`get` operations holds at most
one element — at most one command in flight and one result pending per
device kind. -/
theorem channels_hold_at_most_one :
    (∀ q, Relation.ReflTransGen (QStep Cmd) temRequests q → q.items.length ≤ 1) ∧
    (∀ q, Relation.ReflTransGen (QStep (Nat × Value)) temResponses q → q.items.length ≤ 1) ∧
    (∀ q, Relation.ReflTransGen (QStep Cmd) camRequests q → q.items.length ≤ 1) ∧
    (∀ q, Relation.ReflTransGen (QStep (Nat × Value)) camResponses q → q.items.length ≤ 1) := by
  refine ⟨?_, ?_, ?_, ?_⟩ <;> intro q hr <;>
    exact (reachable_bound _ q (by decide) hr).1.trans_eq (reachable_bound _ q (by decide) hr).2

theorem channels_hold_at_most_one_witness :
    (BQueue.mk 1 [echoCmd] : BQueue Cmd).items.length ≤ 1 :=
  channels_hold_at_most_one.1 (BQueue.mk 1 [echoCmd])
    (Relation.ReflTransGen.single (QStep.put temRequests echoCmd (by decide)))

/-- The polling loop in `main` before the camera threads start:
`for _ in range(100): if tem is not None: break; time.sleep(0.05)` with an
`else: raise RuntimeError(...)` clause. Each list element is one poll of
`getattr(tem_server, 'tem') is not None`; exhausting the list without a
successful poll raises. -/
def waitPolls : List Bool → Except String Unit
  | [] => Except.error "Could not start TEM device on server in 5 seconds"
  | b :: rest => if b then Except.ok () else waitPolls rest

/-- The startup wait as called: exactly 100 polls of the readiness check. -/
def startupWait (ready : Nat → Bool) : Except String Unit :=
  waitPolls ((List.range 100).map ready)

theorem waitPolls_all_false (l : List Bool) (h : ∀ b ∈ l, b = false) :
    waitPolls l = Except.error "Could not start TEM device on server in 5 seconds" := by
  induction l with
  | nil => rfl
  | cons b rest ih =>
    have hb : b = false := h b (List.mem_cons_self b rest)
    subst hb
    simpa [waitPolls] using ih fun x hx => h x (List.mem_cons_of_mem _ hx)

theorem waitPolls_ok_of_mem (l : List Bool) (h : true ∈ l) :
    waitPolls l = Except.ok () := by
  induction l with
  | nil => cases h
  | cons b rest ih =>
    cases b
    · have hr : true ∈ rest := by simpa using h
      simpa [waitPolls] using ih hr
    · rfl

/-- Claim C8: if the hardware session is not ready at any of the 100 polls,
startup raises the fatal `RuntimeError` and aborts; if it becomes ready
within the bound, startup proceeds. In contrast, a command-level failure
never terminates anything: the dispatch of any command always yields a
status-200 or status-500 result, never an escaping error. -/
theorem startup_error_is_fatal_and_unique (ready : Nat → Bool) :
    ((∀ i, i < 100 → ready i = false) →
      startupWait ready =
        Except.error "Could not start TEM device on server in 5 seconds") ∧
    ((∃ i, i < 100 ∧ ready i = true) → startupWait ready = Except.ok ()) ∧
    (∀ dev cmd, (runIteration dev cmd).1 = 200 ∨ (runIteration dev cmd).1 = 500) := by
  refine ⟨?_, ?_, ?_⟩
  · intro h
    apply waitPolls_all_false
    intro b hb
    obtain ⟨i, hi, hbi⟩ := List.mem_map.mp hb
    exact hbi ▸ h i (List.mem_range.mp hi)
  · rintro ⟨i, hi, hri⟩
    apply waitPolls_ok_of_mem
    exact List.mem_map.mpr ⟨i, List.mem_range.mpr hi, hri⟩
  · intro dev cmd
    unfold runIteration
    cases evaluate dev (selectorOf cmd) (argsOf cmd) (kwargsOf cmd) with
    | ok ret => exact Or.inl rfl
    | error e => exact Or.inr rfl

theorem startup_error_is_fatal_and_unique_witness :
    startupWait (fun _ => false) =
      Except.error "Could not start TEM device on server in 5 seconds" ∧
    startupWait (fun _ => true) = Except.ok () :=
  ⟨(startup_error_is_fatal_and_unique (fun _ => false)).1 (fun _ _ => rfl),
   (startup_error_is_fatal_and_unique (fun _ => true)).2.1 ⟨0, by decide, rfl⟩⟩

end TemServer

namespace InstaConfig

open TemServer

/-- A value loaded by `yaml.safe_load` or produced by `dict_to_namespace`:
YAML scalars and mappings, plus the `NS` (SimpleNamespace) objects the
conversion creates. -/
inductive PyObj where
  | str (s : String)
  | int (n : Int)
  | dict (entries : List (String × PyObj))
  | ns (entries : List (String × PyObj))

mutual

/-- `dict_to_namespace`: recursively converts a dictionary into an `NS`
namespace; any non-dict value is returned unchanged. -/
def dict_to_namespace : PyObj → PyObj
  | PyObj.dict es => PyObj.ns (nsEntries es)
  | PyObj.str s => PyObj.str s
  | PyObj.int n => PyObj.int n
  | PyObj.ns es => PyObj.ns es

def nsEntries : List (String × PyObj) → List (String × PyObj)
  | [] => []
  | (k, v) :: rest => (k, dict_to_namespace v) :: nsEntries rest

end

/-- What opening and parsing the camera YAML file can do: the file may be
missing (`FileNotFoundError`), unreadable or malformed (some other
exception), or parse to a value. -/
inductive LoadError where
  | fileNotFound
  | other (msg : String)

/-- `config.load_camera_config`: open `<camera>.yaml` and convert the
loaded value into a namespace. `file = none` models a missing file, whose
`open` raises `FileNotFoundError`; `some (Except.error msg)` models any
other failure while reading or parsing; `some (Except.ok y)` a successful
load of `y`. -/
def load_camera_config (file : Option (Except String PyObj)) : Except LoadError PyObj :=
  match file with
  | Option.none => Except.error LoadError.fileNotFound
  | some (Except.error msg) => Except.error (LoadError.other msg)
  | some (Except.ok y) => Except.ok (dict_to_namespace y)

/-- The `camera` field computed in `config.__init__`:
`try: self.camera = self.load_camera_config()` with
`except FileNotFoundError: self.camera = NS()`. Only `FileNotFoundError`
is caught; any other exception propagates out of the constructor. -/
def init_camera (file : Option (Except String PyObj)) : Except LoadError PyObj :=
  match load_camera_config file with
  | Except.ok c => Except.ok c
  | Except.error LoadError.fileNotFound => Except.ok (PyObj.ns [])
  | Except.error e => Except.error e

/-- A small camera configuration mapping, as `yaml.safe_load` would return
it. -/
def demoCameraYaml : PyObj :=
  PyObj.dict
    [("default_binsize", PyObj.int 1),
     ("dimensions", PyObj.dict [("x", PyObj.int 1024), ("y", PyObj.int 1024)])]

/-- Claim C10: construction of the configuration never fails because the
camera YAML file is missing — a `FileNotFoundError` from
`load_camera_config` is caught and the camera configuration becomes the
empty namespace `NS()`, while a successful load yields the converted
namespace unchanged. -/
theorem missing_camera_file_yields_empty_namespace
    (file : Option (Except String PyObj)) :
    (file = Option.none → init_camera file = Except.ok (PyObj.ns [])) ∧
    init_camera file ≠ Except.error LoadError.fileNotFound ∧
    (∀ y, file = some (Except.ok y) →
      init_camera file = Except.ok (dict_to_namespace y)) := by
  refine ⟨?_, ?_, ?_⟩
  · intro h
    subst h
    rfl
  · cases file with
    | none => exact fun h => Except.noConfusion h
    | some r =>
      cases r with
      | ok y =>
        exact fun h => Except.noConfusion h
      | error m =>
        exact fun h => LoadError.noConfusion (Except.error.inj h)
  · intro y h
    subst h
    rfl

theorem missing_camera_file_yields_empty_namespace_witness :
    init_camera Option.none = Except.ok (PyObj.ns []) ∧
    init_camera (some (Except.ok demoCameraYaml)) =
      Except.ok (dict_to_namespace demoCameraYaml) :=
  ⟨(missing_camera_file_yields_empty_namespace Option.none).1 rfl,
   (missing_camera_file_yields_empty_namespace (some (Except.ok demoCameraYaml))).2.2
     demoCameraYaml rfl⟩

end InstaConfig
